import Mathlib

/-!
Verification development for the Multi-Agent Custom Automation Engine backend.
The definitions below are a shallow embedding of `src/backend/utils.py` and of
the agent tool modules (`diagram_developer.py`, `solution_architect.py`,
`verification_assistant.py`).  Machine-level concerns (HTTP, asyncio) are
modelled by explicit data: the outcome of the evaluator request is a value,
the process-wide `runtime_dict` is threaded as explicit state, and effectful
tool bodies return their effect trace alongside their result string.
-/

namespace MACAE

/-! ## Safety gate (`rai_success`, utils.py lines 449-493)

The Python code sends one chat-completion request and inspects the decoded
JSON.  We model the decoded body by the fields the code reads: the first
choice's optional `message`/`content`, and an optional top-level `error`
object carrying a `code`.  The `requests.post` call and `.json()` decoding
can raise; `rai_success` wraps neither in a try/except, so a raise at either
point propagates.  We model that by an `HttpOutcome` input and a result type
with a "raised" constructor. -/

structure ChatMessage where
  content : Option String
  deriving Repr, DecidableEq

structure ChatChoice where
  message : Option ChatMessage
  deriving Repr, DecidableEq

structure ApiError where
  code : String
  deriving Repr, DecidableEq

/-- The decoded JSON body, restricted to the keys `rai_success` reads.
`choices = []` covers both an absent `choices` key and an empty list (both
falsy under `response_json.get("choices")`); `error = none` covers an absent
or falsy `error` object. -/
structure RaiResponse where
  choices : List ChatChoice
  error : Option ApiError
  deriving Repr, DecidableEq

/-- Outcome of `requests.post(...)` followed by `.json()`:
either one of the two calls raised, or a decoded JSON body. -/
inductive HttpOutcome where
  | raised (msg : String)
  | json (r : RaiResponse)
  deriving Repr, DecidableEq

/-- What `rai_success` does for its caller: return a boolean verdict, or let
an exception escape. -/
inductive GateResult where
  | verdict (b : Bool)
  | exn (msg : String)
  deriving Repr, DecidableEq

/-- `response_json["choices"][0]["message"]["content"]` guarded exactly as in
the source: `choices` truthy, `"message" in choices[0]`, `"content" in
message`. -/
def firstChoiceContent (r : RaiResponse) : Option String :=
  match r.choices with
  | [] => none
  | c :: _ =>
    match c.message with
    | none => none
    | some m => m.content

/-- The boolean condition of utils.py lines 484-491.  Python's `and` binds
tighter than `or`, so the expression parses as
`(choices-path-content == "FALSE") or (error and error["code"] != "content_filter")`. -/
def rai_decide (r : RaiResponse) : Bool :=
  (firstChoiceContent r == some "FALSE")
  || (match r.error with
      | some e => e.code != "content_filter"
      | none => false)

/-- `rai_success` as the caller observes it: a raise inside the function body
propagates (there is no try/except around the request or the decode); a
decoded body is classified by `rai_decide`. -/
def rai_success : HttpOutcome → GateResult
  | .raised msg => .exn msg
  | .json r => .verdict (rai_decide r)

/-! ## Concrete evaluations of the gate condition -/

example : rai_decide { choices := [{ message := some { content := some "FALSE" } }], error := none } = true := by decide
example : rai_decide { choices := [{ message := some { content := some "TRUE" } }], error := none } = false := by decide
example : rai_decide { choices := [], error := some { code := "rate_limit" } } = true := by decide
example : rai_decide { choices := [], error := some { code := "content_filter" } } = false := by decide

/-! ## C1 and C2 -/

/-- C1 (counterexample): the claim "rai_success returns approval iff the first
choice's content is exactly \"FALSE\", and every evaluator-reported error
whose code is not \"content_filter\" yields rejection" is false on the code:
a body `{"error": {"code": "rate_limit"}}` (no choices, content ≠ "FALSE")
is APPROVED. -/
theorem rai_decide_error_approves :
    rai_decide { choices := [], error := some { code := "rate_limit" } } = true
    ∧ firstChoiceContent { choices := [], error := some { code := "rate_limit" } } ≠ some "FALSE" := by
  decide

/-- C1 (amended): `rai_decide` returns approval iff the first choice's message
content is exactly "FALSE", OR the body reports an error whose code differs
from "content_filter" (the code fails open on non-content-filter evaluator
errors); every other decoded body — "TRUE", any other content, a
content_filter error, or nothing recognisable — is rejected. -/
theorem rai_decide_iff (r : RaiResponse) :
    rai_decide r = true ↔
      (firstChoiceContent r = some "FALSE"
        ∨ ∃ e, r.error = some e ∧ e.code ≠ "content_filter") := by
  unfold rai_decide
  cases h : r.error with
  | none => simp
  | some e => simp [bne_iff_ne]

/-- C2 (counterexample): the claim "for every transport failure the gate
returns a rejection verdict and never raises" is false on the code: when
`requests.post` raises a connection error, `rai_success` propagates the
exception — it returns no verdict at all, in particular not rejection. -/
theorem rai_success_raises_on_transport_failure :
    rai_success (.raised "ConnectionError") = .exn "ConnectionError"
    ∧ rai_success (.raised "ConnectionError") ≠ .verdict false := by
  decide

/-- C2 (amended): a transport or JSON-decode failure propagates as an
exception out of `rai_success` (so it is never an approval verdict and there
is no retry), while a decoded body carrying neither a "FALSE" first-choice
content nor any error object yields the rejection verdict `false`. -/
theorem rai_success_transport (m : String) (r : RaiResponse)
    (hc : firstChoiceContent r ≠ some "FALSE") (he : r.error = none) :
    rai_success (.raised m) = .exn m
    ∧ rai_success (.raised m) ≠ .verdict true
    ∧ rai_success (.json r) = .verdict false := by
  refine ⟨rfl, by simp [rai_success], ?_⟩
  simp only [rai_success, GateResult.verdict.injEq]
  unfold rai_decide
  rw [he]
  simp [hc]

/-- Witness for `rai_success_transport` at a concrete transport failure and a
concrete unrecognisable body. -/
theorem rai_success_transport_witness :
    rai_success (.raised "timeout") = .exn "timeout"
    ∧ rai_success (.raised "timeout") ≠ .verdict true
    ∧ rai_success (.json { choices := [], error := none }) = .verdict false :=
  rai_success_transport "timeout" { choices := [], error := none } (by decide) rfl

/-! ## Tool catalog (`retrieve_all_agent_tools`, utils.py lines 346-446)

A `Tool` is modelled by the three attributes the builder reads: `name`,
`description`, and the string rendering of
`tool.schema["parameters"]["properties"]`.  The module registers nine tool
categories at import time (utils.py lines 43-51): hr, marketing, procurement,
product, generic, tech_support, diagram_developer, solution_architect and
verification_assistant; `Registrations` carries all nine lists.  The builder
re-fetches and flattens only eight of them — the generic category is never
read — appending, in source order: tech_support, procurement, hr, marketing,
product, diagram_developer, solution_architect, verification_assistant. -/

structure ToolDef where
  name : String
  description : String
  propertiesStr : String
  deriving Repr, DecidableEq

structure CatalogEntry where
  agent : String
  function : String
  description : String
  arguments : String
  deriving Repr, DecidableEq

structure Registrations where
  hr_tools : List ToolDef
  marketing_tools : List ToolDef
  procurement_tools : List ToolDef
  product_tools : List ToolDef
  generic_tools : List ToolDef
  tech_support_tools : List ToolDef
  diagram_developer_tools : List ToolDef
  solution_architect_tools : List ToolDef
  verification_assistant_tools : List ToolDef
  deriving Repr, DecidableEq

/-- One catalog dict as appended by each loop body. -/
def catalogEntry (agent : String) (t : ToolDef) : CatalogEntry :=
  { agent := agent, function := t.name, description := t.description,
    arguments := t.propertiesStr }

def toolEntries (agent : String) (ts : List ToolDef) : List CatalogEntry :=
  ts.map (catalogEntry agent)

def retrieve_all_agent_tools (regs : Registrations) : List CatalogEntry :=
  toolEntries "TechSupportAgent" regs.tech_support_tools
    ++ toolEntries "ProcurementAgent" regs.procurement_tools
    ++ toolEntries "HrAgent" regs.hr_tools
    ++ toolEntries "MarketingAgent" regs.marketing_tools
    ++ toolEntries "ProductAgent" regs.product_tools
    ++ toolEntries "DiagramDeveloperAgent" regs.diagram_developer_tools
    ++ toolEntries "SolutionArchitectAgent" regs.solution_architect_tools
    ++ toolEntries "VerificationAssistantAgent" regs.verification_assistant_tools

/-- The eight categories the builder iterates over, in the order of the
source's loops. -/
inductive CatalogCategory where
  | techSupport | procurement | hr | marketing | product
  | diagramDeveloper | solutionArchitect | verificationAssistant
  deriving Repr, DecidableEq

def categoryOrder : List CatalogCategory :=
  [.techSupport, .procurement, .hr, .marketing, .product,
   .diagramDeveloper, .solutionArchitect, .verificationAssistant]

def categoryAgent : CatalogCategory → String
  | .techSupport => "TechSupportAgent"
  | .procurement => "ProcurementAgent"
  | .hr => "HrAgent"
  | .marketing => "MarketingAgent"
  | .product => "ProductAgent"
  | .diagramDeveloper => "DiagramDeveloperAgent"
  | .solutionArchitect => "SolutionArchitectAgent"
  | .verificationAssistant => "VerificationAssistantAgent"

def categoryTools (regs : Registrations) : CatalogCategory → List ToolDef
  | .techSupport => regs.tech_support_tools
  | .procurement => regs.procurement_tools
  | .hr => regs.hr_tools
  | .marketing => regs.marketing_tools
  | .product => regs.product_tools
  | .diagramDeveloper => regs.diagram_developer_tools
  | .solutionArchitect => regs.solution_architect_tools
  | .verificationAssistant => regs.verification_assistant_tools

/-- The (agent, tool-name) key of each catalog entry, per category, in
catalog order. -/
def catalogKeys (regs : Registrations) : List (String × String) :=
  (categoryOrder.map fun c =>
    (categoryTools regs c).map fun t => (categoryAgent c, t.name)).flatten

/-- The (agent, function) keys of one category's entries are the tagged tool
names of that category. -/
theorem toolEntries_keys (agent : String) (ts : List ToolDef) :
    (toolEntries agent ts).map (fun e => (e.agent, e.function))
      = ts.map fun t => (agent, t.name) := by
  simp [toolEntries, List.map_map, Function.comp_def, catalogEntry]

def emptyRegs : Registrations :=
  { hr_tools := [], marketing_tools := [], procurement_tools := [],
    product_tools := [], generic_tools := [], tech_support_tools := [],
    diagram_developer_tools := [], solution_architect_tools := [],
    verification_assistant_tools := [] }

/-- A registration set in which the tool name "x" is registered twice under
the tech-support category. -/
def dupRegs : Registrations :=
  { emptyRegs with
    tech_support_tools := [⟨"x", "d1", "{}"⟩, ⟨"x", "d2", "{}"⟩] }

/-- A registration set whose only tool lives in the generic category. -/
def genericOnlyRegs : Registrations :=
  { emptyRegs with generic_tools := [⟨"g", "generic tool", "{}"⟩] }

/-- C5 (counterexample): the claim "a repeated (role, tool name) pair makes
the catalog build fail with a duplicate-tool error" is false on the code:
registering "x" twice under tech_support makes the build return normally,
and the returned catalog carries the duplicate (agent, function) pair twice. -/
theorem retrieve_all_agent_tools_keeps_duplicates :
    retrieve_all_agent_tools dupRegs =
      [{ agent := "TechSupportAgent", function := "x", description := "d1", arguments := "{}" },
       { agent := "TechSupportAgent", function := "x", description := "d2", arguments := "{}" }]
    ∧ ¬ ((retrieve_all_agent_tools dupRegs).map fun e => (e.agent, e.function)).Nodup := by
  constructor
  · rfl
  · decide

/-- C5 (amended): `retrieve_all_agent_tools` performs no duplicate detection
and never fails: for every registration set it returns the catalog whose
(agent, function) keys are exactly the per-category tagged name lists
concatenated in the fixed category order — so repeated (role, tool name)
pairs pass through into the output, and the output is duplicate-free exactly
when that concatenation is. -/
theorem retrieve_all_agent_tools_keys (regs : Registrations) :
    ((retrieve_all_agent_tools regs).map fun e => (e.agent, e.function))
      = catalogKeys regs
    ∧ (((retrieve_all_agent_tools regs).map fun e => (e.agent, e.function)).Nodup
        ↔ (catalogKeys regs).Nodup) := by
  have e : ((retrieve_all_agent_tools regs).map fun e => (e.agent, e.function))
      = catalogKeys regs := by
    simp [retrieve_all_agent_tools, catalogKeys, categoryOrder, categoryTools,
      categoryAgent, List.map_append, toolEntries_keys]
  exact ⟨e, by rw [e]⟩

/-- C6 (counterexample): the claim "the catalog contains an entry for every
tool of every registered category, including the generic category" is false
on the code: with a registration set whose sole tool is the generic tool
"g", the build returns the empty catalog — the generic category is never
read. -/
theorem retrieve_all_agent_tools_drops_generic :
    genericOnlyRegs.generic_tools ≠ []
    ∧ retrieve_all_agent_tools genericOnlyRegs = [] := by
  constructor
  · decide
  · rfl

/-- C6 (amended): the catalog contains an entry for every tool of each of the
EIGHT re-fetched categories (tech_support, procurement, hr, marketing,
product, diagram_developer, solution_architect, verification_assistant),
each tagged with its owning role, concatenated in that fixed category order
with each category's internal order preserved; the generic category is
excluded, and the catalog's length is the sum of the eight category lengths
alone. -/
theorem retrieve_all_agent_tools_complete (regs : Registrations)
    (c : CatalogCategory) (t : ToolDef) (h : t ∈ categoryTools regs c) :
    catalogEntry (categoryAgent c) t ∈ retrieve_all_agent_tools regs
    ∧ retrieve_all_agent_tools regs
        = (categoryOrder.map fun c =>
            toolEntries (categoryAgent c) (categoryTools regs c)).flatten
    ∧ (retrieve_all_agent_tools regs).length
        = regs.tech_support_tools.length + regs.procurement_tools.length
          + regs.hr_tools.length + regs.marketing_tools.length
          + regs.product_tools.length + regs.diagram_developer_tools.length
          + regs.solution_architect_tools.length
          + regs.verification_assistant_tools.length := by
  have hjoin : retrieve_all_agent_tools regs
      = (categoryOrder.map fun c =>
          toolEntries (categoryAgent c) (categoryTools regs c)).flatten := by
    simp [retrieve_all_agent_tools, catalogKeys, categoryOrder, categoryTools,
      categoryAgent]
  refine ⟨?_, hjoin, ?_⟩
  · rw [hjoin]
    have hc : c ∈ categoryOrder := by cases c <;> decide
    refine List.mem_flatten.2 ⟨toolEntries (categoryAgent c) (categoryTools regs c),
      List.mem_map_of_mem _ hc, ?_⟩
    exact List.mem_map_of_mem _ h
  · simp [retrieve_all_agent_tools, toolEntries]
    ring

/-- Witness for `retrieve_all_agent_tools_complete`: the duplicate-free
two-category scenario of the spec (tech_support "ping", hr "pong"). -/
theorem retrieve_all_agent_tools_complete_witness :
    catalogEntry (categoryAgent .techSupport) ⟨"ping", "p", "{}"⟩
        ∈ retrieve_all_agent_tools
            { emptyRegs with tech_support_tools := [⟨"ping", "p", "{}"⟩],
                             hr_tools := [⟨"pong", "q", "{}"⟩] }
    ∧ retrieve_all_agent_tools
            { emptyRegs with tech_support_tools := [⟨"ping", "p", "{}"⟩],
                             hr_tools := [⟨"pong", "q", "{}"⟩] }
        = (categoryOrder.map fun c =>
            toolEntries (categoryAgent c)
              (categoryTools
                { emptyRegs with tech_support_tools := [⟨"ping", "p", "{}"⟩],
                                 hr_tools := [⟨"pong", "q", "{}"⟩] } c)).flatten
    ∧ (retrieve_all_agent_tools
            { emptyRegs with tech_support_tools := [⟨"ping", "p", "{}"⟩],
                             hr_tools := [⟨"pong", "q", "{}"⟩] }).length
        = 1 + 0 + 1 + 0 + 0 + 0 + 0 + 0 :=
  retrieve_all_agent_tools_complete
    { emptyRegs with tech_support_tools := [⟨"ping", "p", "{}"⟩],
                     hr_tools := [⟨"pong", "q", "{}"⟩] }
    .techSupport ⟨"ping", "p", "{}"⟩ (by decide)

/-- C7 (confirmed): catalog construction is deterministic — it is a function
of the eight category lists it reads, so any two builds whose registrations
agree on those eight lists (the generic list may even differ) return equal
catalogs: same entries, same field values, same order. -/
theorem retrieve_all_agent_tools_deterministic (r₁ r₂ : Registrations)
    (h1 : r₁.hr_tools = r₂.hr_tools)
    (h2 : r₁.marketing_tools = r₂.marketing_tools)
    (h3 : r₁.procurement_tools = r₂.procurement_tools)
    (h4 : r₁.product_tools = r₂.product_tools)
    (h5 : r₁.tech_support_tools = r₂.tech_support_tools)
    (h6 : r₁.diagram_developer_tools = r₂.diagram_developer_tools)
    (h7 : r₁.solution_architect_tools = r₂.solution_architect_tools)
    (h8 : r₁.verification_assistant_tools = r₂.verification_assistant_tools) :
    retrieve_all_agent_tools r₁ = retrieve_all_agent_tools r₂ := by
  simp [retrieve_all_agent_tools, h1, h2, h3, h4, h5, h6, h7, h8]

/-- Witness for `retrieve_all_agent_tools_deterministic`: two registration
sets differing only in the unread generic category build equal catalogs. -/
theorem retrieve_all_agent_tools_deterministic_witness :
    retrieve_all_agent_tools
        { emptyRegs with tech_support_tools := [⟨"ping", "p", "{}"⟩] }
      = retrieve_all_agent_tools
        { emptyRegs with tech_support_tools := [⟨"ping", "p", "{}"⟩],
                         generic_tools := [⟨"g", "generic tool", "{}"⟩] } :=
  retrieve_all_agent_tools_deterministic _ _ rfl rfl rfl rfl rfl rfl rfl rfl

/-! ## Session bootstrap (`initialize_runtime_and_context`, utils.py 65-343)

The process-wide `runtime_dict` (utils.py 38-41) is threaded as explicit
state: an insert-or-replace association list from session id to the stored
(runtime, context) pair.  A `SingleThreadedAgentRuntime` instance is modelled
by a freshness token (distinguishing instances created by different
bootstraps) plus the observable registrations made on it: the keys under
which `ToolAgent` factories were registered (utils.py 127-174, all
UNPREFIXED literals) and the per-agent registrations (utils.py 177-339,
session-prefixed keys, each capability agent handed a session-prefixed tool
dispatch `AgentId`).  `uuid.uuid4()` draws are modelled by an injective
supply indexed by the freshness counter.  The function checks
`AZURE_COSMOS_ENDPOINT` before creating anything and raises `ValueError` if
it is unset; the single write to `runtime_dict` happens at line 342, after
every registration, so an earlier raise leaves the state untouched — the
embedding returns the (possibly updated) state alongside the result. -/

structure CosmosContext where
  sessionId : String
  ctxId : Nat
  deriving Repr, DecidableEq

/-- One `Agent.register` call on the session's runtime: the type key it
registers, and the tool-dispatch `AgentId` handed to the constructed agent,
when the agent takes one. -/
structure AgentReg where
  key : String
  dispatchAddr : Option String
  deriving Repr, DecidableEq

structure SessionRuntime where
  runtimeId : Nat
  userId : String
  toolAgentKeys : List String
  agentRegs : List AgentReg
  started : Bool
  deriving Repr, DecidableEq

structure GlobalState where
  nextFresh : Nat
  runtimeDict : List (String × (SessionRuntime × CosmosContext))
  deriving Repr, DecidableEq

structure Env where
  azureCosmosEndpoint : Option String
  deriving Repr, DecidableEq

inductive BootstrapError where
  | valueError (msg : String)
  deriving Repr, DecidableEq

instance {ε α : Type} [DecidableEq ε] [DecidableEq α] : DecidableEq (Except ε α) := fun
  | .ok a, .ok b =>
      if h : a = b then .isTrue (congrArg Except.ok h)
      else .isFalse fun c => h (Except.ok.inj c)
  | .ok _, .error _ => .isFalse fun c => Except.noConfusion c
  | .error _, .ok _ => .isFalse fun c => Except.noConfusion c
  | .error e, .error f =>
      if h : e = f then .isTrue (congrArg Except.error h)
      else .isFalse fun c => h (Except.error.inj c)

/-- Python dict assignment `d[k] = v`: replace the binding if present,
otherwise append. -/
def dictInsert {α : Type} (d : List (String × α)) (k : String) (v : α) :
    List (String × α) :=
  match d with
  | [] => [(k, v)]
  | (k', v') :: rest =>
    if k' = k then (k, v) :: rest else (k', v') :: dictInsert rest k v

/-- Modelled `str(uuid.uuid4())` draw number `n`; distinct draws are
distinct. -/
def freshUuid (n : Nat) : String := "uuid-" ++ toString n

/-- The ten `ToolAgent.register` keys of utils.py 127-174, verbatim: none of
them carries the session prefix. -/
def toolAgentRegistrations : List String :=
  ["hr_tool_agent", "marketing_tool_agent", "procurement_tool_agent",
   "product_tool_agent", "generic_tool_agent", "tech_support_tool_agent",
   "diagram_developer_tool_agent", "solution_architect_tool_agent",
   "verification_assistant_tool_agent", "misc_tool_agent"]

/-- The agent registrations of utils.py 177-339, in source order.  Each
capability agent is handed `AgentId(f"{session_id}_<role>_tool_agent")`;
the planner, human proxy and group chat manager take no dispatch address
(the human agent is handed the group chat manager's id, not a dispatch
actor's). -/
def agentRegistrations (sid : String) : List AgentReg :=
  [ { key := sid ++ "_planner_agent", dispatchAddr := none },
    { key := sid ++ "_hr_agent", dispatchAddr := some (sid ++ "_hr_tool_agent") },
    { key := sid ++ "_marketing_agent", dispatchAddr := some (sid ++ "_marketing_tool_agent") },
    { key := sid ++ "_procurement_agent", dispatchAddr := some (sid ++ "_procurement_tool_agent") },
    { key := sid ++ "_product_agent", dispatchAddr := some (sid ++ "_product_tool_agent") },
    { key := sid ++ "_generic_agent", dispatchAddr := some (sid ++ "_generic_tool_agent") },
    { key := sid ++ "_tech_support_agent", dispatchAddr := some (sid ++ "_tech_support_tool_agent") },
    { key := sid ++ "_diagram_developer_agent", dispatchAddr := some (sid ++ "_diagram_developer_tool_agent") },
    { key := sid ++ "_solution_architect_agent", dispatchAddr := some (sid ++ "_solution_architect_tool_agent") },
    { key := sid ++ "_verification_assistant_agent", dispatchAddr := some (sid ++ "_verification_assistant_tool_agent") },
    { key := sid ++ "_human_agent", dispatchAddr := none },
    { key := sid ++ "_group_chat_manager", dispatchAddr := none } ]

/-- The `BAgentType` enum members used as keys of `agent_ids`
(models/messages.py, as consumed at utils.py 316-328). -/
inductive BAgentType where
  | planner_agent | human_agent | hr_agent | marketing_agent
  | procurement_agent | product_agent | generic_agent | tech_support_agent
  | diagram_developer_agent | solution_architect_agent | verification_agent
  deriving Repr, DecidableEq

/-- The `agent_ids` table built at utils.py 316-328 and handed to the
`GroupChatManager`, in source order, each value the `AgentId` string derived
at utils.py 87-98. -/
def agent_ids (sid : String) : List (BAgentType × String) :=
  [ (.planner_agent, sid ++ "_planner_agent"),
    (.human_agent, sid ++ "_human_agent"),
    (.hr_agent, sid ++ "_hr_agent"),
    (.marketing_agent, sid ++ "_marketing_agent"),
    (.procurement_agent, sid ++ "_procurement_agent"),
    (.product_agent, sid ++ "_product_agent"),
    (.generic_agent, sid ++ "_generic_agent"),
    (.tech_support_agent, sid ++ "_tech_support_agent"),
    (.diagram_developer_agent, sid ++ "_diagram_developer_agent"),
    (.solution_architect_agent, sid ++ "_solution_architect_agent"),
    (.verification_agent, sid ++ "_verification_assistant_agent") ]

/-- The address `agent_ids` records for each role (the literal f-strings of
utils.py 87-98). -/
def roleAddress (sid : String) : BAgentType → String
  | .planner_agent => sid ++ "_planner_agent"
  | .human_agent => sid ++ "_human_agent"
  | .hr_agent => sid ++ "_hr_agent"
  | .marketing_agent => sid ++ "_marketing_agent"
  | .procurement_agent => sid ++ "_procurement_agent"
  | .product_agent => sid ++ "_product_agent"
  | .generic_agent => sid ++ "_generic_agent"
  | .tech_support_agent => sid ++ "_tech_support_agent"
  | .diagram_developer_agent => sid ++ "_diagram_developer_agent"
  | .solution_architect_agent => sid ++ "_solution_architect_agent"
  | .verification_agent => sid ++ "_verification_assistant_agent"

/-- `initialize_runtime_and_context`.  Returns the result (the stored pair,
or the propagated error) together with the final global state. -/
def initialize_runtime_and_context (env : Env) (st : GlobalState)
    (session_id : Option String) (user_id : Option String) :
    Except BootstrapError (SessionRuntime × CosmosContext) × GlobalState :=
  let (sid, c₁) :=
    match session_id with
    | some s => (s, st.nextFresh)
    | none => (freshUuid st.nextFresh, st.nextFresh + 1)
  let (uid, c₂) :=
    match user_id with
    | some u => (u, c₁)
    | none => (freshUuid c₁, c₁ + 1)
  match env.azureCosmosEndpoint with
  | none =>
    (.error (.valueError "AZURE_COSMOS_ENDPOINT environment variable is not set"), st)
  | some _ =>
    let cosmos_memory : CosmosContext := { sessionId := sid, ctxId := c₂ }
    let runtime : SessionRuntime :=
      { runtimeId := c₂ + 1, userId := uid,
        toolAgentKeys := toolAgentRegistrations,
        agentRegs := agentRegistrations sid,
        started := true }
    let st' : GlobalState :=
      { nextFresh := c₂ + 2,
        runtimeDict := dictInsert st.runtimeDict sid (runtime, cosmos_memory) }
    (.ok (runtime, cosmos_memory), st')

theorem dictInsert_lookup {α : Type} (d : List (String × α)) (k : String) (v : α) :
    (dictInsert d k v).lookup k = some v := by
  induction d with
  | nil => simp [dictInsert, List.lookup]
  | cons p rest ih =>
    obtain ⟨k', v'⟩ := p
    by_cases h : k' = k
    · simp [dictInsert, h, List.lookup]
    · simp only [dictInsert, if_neg h, List.lookup]
      have : (k == k') = false := by
        simp [beq_iff_eq]
        exact fun e => h e.symm
      simp [this, ih]

/-- The runtime a full bootstrap constructs when the freshness counter stands
at `n` and both ids are supplied. -/
def bootRuntime (n : Nat) (uid sid : String) : SessionRuntime :=
  { runtimeId := n + 1, userId := uid,
    toolAgentKeys := toolAgentRegistrations,
    agentRegs := agentRegistrations sid, started := true }

/-- The persisted-context handle that bootstrap opens at counter `n`. -/
def bootContext (n : Nat) (sid : String) : CosmosContext :=
  { sessionId := sid, ctxId := n }

/-- Unfolding lemma: with the endpoint configured and both ids supplied, the
bootstrap returns a fresh (runtime, context) pair and stores it under the
session id. -/
theorem initialize_ok (env : Env) (st : GlobalState) (sid u epUrl : String)
    (henv : env.azureCosmosEndpoint = some epUrl) :
    initialize_runtime_and_context env st (some sid) (some u)
      = (.ok (bootRuntime st.nextFresh u sid, bootContext st.nextFresh sid),
         { nextFresh := st.nextFresh + 2,
           runtimeDict := dictInsert st.runtimeDict sid
             (bootRuntime st.nextFresh u sid, bootContext st.nextFresh sid) }) := by
  unfold initialize_runtime_and_context
  rw [henv]
  rfl

/-! ## Concrete scenario data -/

def okEnv : Env := { azureCosmosEndpoint := some "https://cosmos.example" }

def noCosmosEnv : Env := { azureCosmosEndpoint := none }

def emptyState : GlobalState := { nextFresh := 0, runtimeDict := [] }

/-- A previously stored runtime for session "s" (created by some earlier
bootstrap, hence with an id below the current counter). -/
def oldRt : SessionRuntime := bootRuntime 98 "u0" "s"

def oldCtx : CosmosContext := bootContext 98 "s"

/-- A global state in which session "s" is already registered. -/
def stWithS : GlobalState :=
  { nextFresh := 100, runtimeDict := [("s", (oldRt, oldCtx))] }

/-! ## C9 -/

/-- C9 (confirmed): if `AZURE_COSMOS_ENDPOINT` is absent, bootstrap raises
the configuration `ValueError` to its caller and returns the global state
unchanged — in particular no entry is stored for any session id, since the
single `runtime_dict` write sits after the raise point. -/
theorem initialize_missing_endpoint (env : Env) (st : GlobalState)
    (sidOpt uidOpt : Option String) (h : env.azureCosmosEndpoint = none) :
    initialize_runtime_and_context env st sidOpt uidOpt
      = (.error (.valueError "AZURE_COSMOS_ENDPOINT environment variable is not set"), st) := by
  cases sidOpt <;> cases uidOpt <;>
    · unfold initialize_runtime_and_context
      rw [h]

/-- Witness for `initialize_missing_endpoint`: a concrete unset-endpoint
environment aborts the creation of session "s" and leaves the registry
holding exactly its prior single entry. -/
theorem initialize_missing_endpoint_witness :
    initialize_runtime_and_context noCosmosEnv stWithS (some "s2") (some "u")
      = (.error (.valueError "AZURE_COSMOS_ENDPOINT environment variable is not set"), stWithS) :=
  initialize_missing_endpoint noCosmosEnv stWithS (some "s2") (some "u") rfl

/-! ## C3 -/

/-- C3 (counterexample): the claim "calling with an already-registered
session id returns the stored tuple unchanged and leaves the registry entry
as it was" is false on the code: `initialize_runtime_and_context` never
consults `runtime_dict`, so for the registered session "s" it returns a pair
different from the stored one and overwrites the registry entry. -/
theorem initialize_rebootstrap_counterexample :
    (initialize_runtime_and_context okEnv stWithS (some "s") (some "u")).1
        ≠ .ok (oldRt, oldCtx)
    ∧ ((initialize_runtime_and_context okEnv stWithS (some "s") (some "u")).2).runtimeDict.lookup "s"
        ≠ some (oldRt, oldCtx) := by
  decide

/-- C3 (amended): for a session id already present in `runtime_dict`, the
call performs a full fresh bootstrap anyway: it succeeds, the registry
afterwards maps that id to exactly the pair the call returns, and that pair
differs from the previously stored one (the stored entry is replaced, not
returned). -/
theorem initialize_rebootstraps (env : Env) (st : GlobalState)
    (sid u epUrl : String) (rtOld : SessionRuntime) (cOld : CosmosContext)
    (henv : env.azureCosmosEndpoint = some epUrl)
    (_hold : st.runtimeDict.lookup sid = some (rtOld, cOld))
    (hwf : rtOld.runtimeId < st.nextFresh) :
    ((initialize_runtime_and_context env st (some sid) (some u)).1).isOk = true
    ∧ ((initialize_runtime_and_context env st (some sid) (some u)).2).runtimeDict.lookup sid
        = ((initialize_runtime_and_context env st (some sid) (some u)).1).toOption
    ∧ (initialize_runtime_and_context env st (some sid) (some u)).1 ≠ .ok (rtOld, cOld)
    ∧ ((initialize_runtime_and_context env st (some sid) (some u)).2).runtimeDict.lookup sid
        ≠ some (rtOld, cOld) := by
  rw [initialize_ok env st sid u epUrl henv]
  have hid : (bootRuntime st.nextFresh u sid).runtimeId = st.nextFresh + 1 := rfl
  have hneq : bootRuntime st.nextFresh u sid ≠ rtOld := by
    intro hEq
    rw [← hEq] at hwf
    rw [hid] at hwf
    omega
  refine ⟨rfl, ?_, ?_, ?_⟩
  · simp [dictInsert_lookup, Except.toOption]
  · intro hEq
    exact hneq (by injection hEq with h'; exact congrArg Prod.fst h')
  · rw [dictInsert_lookup]
    intro hEq
    exact hneq (by injection hEq with h'; exact congrArg Prod.fst h')

/-- Witness for `initialize_rebootstraps`: session "s" of `stWithS` is
re-bootstrapped and its registry entry replaced. -/
theorem initialize_rebootstraps_witness :
    ((initialize_runtime_and_context okEnv stWithS (some "s") (some "u")).1).isOk = true
    ∧ ((initialize_runtime_and_context okEnv stWithS (some "s") (some "u")).2).runtimeDict.lookup "s"
        = ((initialize_runtime_and_context okEnv stWithS (some "s") (some "u")).1).toOption
    ∧ (initialize_runtime_and_context okEnv stWithS (some "s") (some "u")).1 ≠ .ok (oldRt, oldCtx)
    ∧ ((initialize_runtime_and_context okEnv stWithS (some "s") (some "u")).2).runtimeDict.lookup "s"
        ≠ some (oldRt, oldCtx) :=
  initialize_rebootstraps okEnv stWithS "s" "u" "https://cosmos.example" oldRt oldCtx
    rfl (by decide) (by decide)

/-! ## C10 -/

/-- C10 (confirmed): one bootstrap derives exactly one address per role — the
`agent_ids` table lists every role of the fixed set exactly once and maps
role `r` to the session-prefixed address `roleAddress sid r` — and two
bootstraps with the same session id (whatever their environments, prior
states or user ids) make identical agent registrations, so they derive
identical addresses for every role. -/
theorem bootstrap_role_addresses (sid : String) (r : BAgentType)
    (env₁ env₂ : Env) (st₁ st₂ : GlobalState) (u₁ u₂ ep₁ ep₂ : String)
    (rt₁ rt₂ : SessionRuntime) (c₁ c₂ : CosmosContext)
    (henv₁ : env₁.azureCosmosEndpoint = some ep₁)
    (henv₂ : env₂.azureCosmosEndpoint = some ep₂)
    (hrt₁ : (initialize_runtime_and_context env₁ st₁ (some sid) (some u₁)).1 = .ok (rt₁, c₁))
    (hrt₂ : (initialize_runtime_and_context env₂ st₂ (some sid) (some u₂)).1 = .ok (rt₂, c₂)) :
    ((agent_ids sid).map Prod.fst).Nodup
    ∧ (agent_ids sid).lookup r = some (roleAddress sid r)
    ∧ rt₁.agentRegs = agentRegistrations sid
    ∧ rt₁.agentRegs = rt₂.agentRegs
    ∧ rt₁.agentRegs.map AgentReg.key = rt₂.agentRegs.map AgentReg.key := by
  have keyList : (agent_ids sid).map Prod.fst
      = [BAgentType.planner_agent, .human_agent, .hr_agent, .marketing_agent,
         .procurement_agent, .product_agent, .generic_agent, .tech_support_agent,
         .diagram_developer_agent, .solution_architect_agent, .verification_agent] := rfl
  have hb₁ : rt₁ = bootRuntime st₁.nextFresh u₁ sid := by
    have := initialize_ok env₁ st₁ sid u₁ ep₁ henv₁
    rw [this] at hrt₁
    simpa using (congrArg Prod.fst (Except.ok.inj hrt₁)).symm
  have hb₂ : rt₂ = bootRuntime st₂.nextFresh u₂ sid := by
    have := initialize_ok env₂ st₂ sid u₂ ep₂ henv₂
    rw [this] at hrt₂
    simpa using (congrArg Prod.fst (Except.ok.inj hrt₂)).symm
  refine ⟨?_, ?_, ?_, ?_, ?_⟩
  · rw [keyList]; decide
  · cases r <;> rfl
  · rw [hb₁]; rfl
  · rw [hb₁, hb₂]; rfl
  · rw [hb₁, hb₂]; rfl

/-- Witness for `bootstrap_role_addresses`: two bootstraps of session "s"
from different prior states agree on every derived address. -/
theorem bootstrap_role_addresses_witness :
    ((agent_ids "s").map Prod.fst).Nodup
    ∧ (agent_ids "s").lookup BAgentType.hr_agent = some (roleAddress "s" .hr_agent)
    ∧ (bootRuntime 0 "u" "s").agentRegs = agentRegistrations "s"
    ∧ (bootRuntime 0 "u" "s").agentRegs = (bootRuntime 100 "v" "s").agentRegs
    ∧ (bootRuntime 0 "u" "s").agentRegs.map AgentReg.key
        = (bootRuntime 100 "v" "s").agentRegs.map AgentReg.key :=
  bootstrap_role_addresses "s" .hr_agent okEnv okEnv emptyState stWithS "u" "v"
    "https://cosmos.example" "https://cosmos.example"
    (bootRuntime 0 "u" "s") (bootRuntime 100 "v" "s")
    (bootContext 0 "s") (bootContext 100 "s")
    rfl rfl (by decide) (by decide)

/-! ## C4 -/

/-- C4 (code bug, evaluated at the failing input): bootstrapping session "s1"
registers the ten `ToolAgent` factories under the UNPREFIXED keys of
`toolAgentRegistrations`, yet every tool-dispatch address handed to a
capability agent is session-prefixed ("s1_hr_tool_agent", ...) — none of the
handed addresses is a key under which a `ToolAgent` was registered on that
runtime; moreover the runtimes of the distinct sessions "s1" and "s2"
register their dispatch actors under identical (shared) keys. -/
theorem tool_dispatch_address_mismatch :
    ((initialize_runtime_and_context okEnv emptyState (some "s1") (some "u")).1.toOption.map
        fun p => p.1.toolAgentKeys) = some toolAgentRegistrations
    ∧ ((initialize_runtime_and_context okEnv emptyState (some "s1") (some "u")).1.toOption.map
        fun p => p.1.agentRegs.filterMap AgentReg.dispatchAddr) =
        some ["s1_hr_tool_agent", "s1_marketing_tool_agent", "s1_procurement_tool_agent",
              "s1_product_tool_agent", "s1_generic_tool_agent", "s1_tech_support_tool_agent",
              "s1_diagram_developer_tool_agent", "s1_solution_architect_tool_agent",
              "s1_verification_assistant_tool_agent"]
    ∧ ((initialize_runtime_and_context okEnv emptyState (some "s1") (some "u")).1.toOption.map
        fun p => (p.1.agentRegs.filterMap AgentReg.dispatchAddr).all
          fun a => !(p.1.toolAgentKeys.contains a)) = some true
    ∧ ((initialize_runtime_and_context okEnv emptyState (some "s1") (some "u")).1.toOption.map
          fun p => p.1.toolAgentKeys)
        = ((initialize_runtime_and_context okEnv emptyState (some "s2") (some "v")).1.toOption.map
          fun p => p.1.toolAgentKeys) := by
  decide

/-! ## Domain tools (agents/solution_architect.py, agents/diagram_developer.py)

The simple tools are pure string templates.  The Azure diagram tools are
not: `create_azure_architecture_diagram` (diagram_developer.py 132-213)
creates a temporary directory, draws the first eight characters of a fresh
UUID, writes a generated Python script into the directory and executes it
with `os.system`, and splices the drawn identifier into its return string.
The two ambient draws (`tempfile.mkdtemp()` and `uuid.uuid4()`) are passed
as explicit inputs, and the side effects are returned as an ordered trace.
`sq` is the single-quote character used by the generated code. -/

def sq : String := String.mk [Char.ofNat 39]

def identify_system_requirements
    (project_name business_needs technical_constraints : String) : String :=
  "System requirements for " ++ sq ++ project_name ++ sq
    ++ " identified based on business needs (" ++ business_needs
    ++ ") and technical constraints (" ++ technical_constraints ++ ")."

def create_system_diagram
    (system_name : String) (components : List String) (diagram_type : String) :
    String :=
  diagram_type ++ " diagram created for " ++ sq ++ system_name ++ sq
    ++ " showing components: " ++ String.intercalate ", " components ++ "."

inductive Effect where
  | mkdtemp (dir : String)
  | fileWrite (path : String) (contents : String)
  | systemCmd (cmd : String)
  deriving Repr, DecidableEq

/-- A relationship dict: the "from" and "to" keys, and the optional "label"
key. -/
structure DiagramRel where
  relFrom : String
  relTo : String
  label : Option String
  deriving Repr, DecidableEq

/-- Python `str.capitalize()`: first character uppercased, the rest
lowercased. -/
def pyCapitalize (s : String) : String :=
  match s.data with
  | [] => ""
  | c :: cs => String.mk (c.toUpper :: cs.map Char.toLower)

/-- Python `str.lower()`, character by character (kernel-reducible). -/
def pyLower (s : String) : String :=
  String.mk (s.data.map Char.toLower)

/-- Python single-character `str.replace`; both call sites here replace one
character by one character. -/
def replaceChar (s : String) (old new : Char) : String :=
  String.mk (s.data.map fun c => if c = old then new else c)

/-- `f"{service.lower().replace('-', '_')}"`. -/
def varName (service : String) : String :=
  replaceChar (pyLower service) (Char.ofNat 45) (Char.ofNat 95)

/-- The seventeen fixed header lines of the generated script
(diagram_developer.py 157-177), ending with the `with Diagram(...)` line. -/
def azureHeaderLines (diagram_name file_name : String) : List String :=
  [ "from diagrams import Diagram, Cluster, Edge",
    "from diagrams.azure.compute import *",
    "from diagrams.azure.database import *",
    "from diagrams.azure.storage import *",
    "from diagrams.azure.network import *",
    "from diagrams.azure.analytics import *",
    "from diagrams.azure.integration import *",
    "from diagrams.azure.security import *",
    "from diagrams.azure.web import *",
    "from diagrams.azure.general import *",
    "from diagrams.azure.identity import *",
    "from diagrams.azure.devops import *",
    "from diagrams.azure.ml import *",
    "from diagrams.azure.iot import *",
    "from diagrams.azure.mobile import *",
    "from diagrams.azure.migration import *",
    "from diagrams.azure.management import *",
    "",
    "with Diagram(" ++ sq ++ diagram_name ++ sq ++ ", filename=" ++ sq
      ++ file_name ++ sq ++ ", show=False):" ]

/-- The per-category component lines (diagram_developer.py 180-188). -/
def componentLines (components : List (String × List String)) : List String :=
  components.flatMap fun cs =>
    if cs.2.isEmpty then []
    else ("    # " ++ pyCapitalize cs.1 ++ " services")
      :: (cs.2.map fun service =>
            "    " ++ varName service ++ " = " ++ service ++ "("
              ++ sq ++ service ++ sq ++ ")")
      ++ [""]

/-- The `component_vars` dict built alongside the component lines, mapping
`f"{category}.{service}"` to the variable name. -/
def componentVars (components : List (String × List String)) :
    List (String × String) :=
  components.foldl
    (fun acc cs =>
      if cs.2.isEmpty then acc
      else cs.2.foldl
        (fun acc2 service => dictInsert acc2 (cs.1 ++ "." ++ service) (varName service))
        acc)
    []

/-- `if from_var and to_var:` — a `dict.get` miss or an empty variable name
is falsy. -/
def truthyStr : Option String → Option String
  | some s => if s = "" then none else some s
  | none => none

def relLine (vars : List (String × String)) (rel : DiagramRel) : List String :=
  match truthyStr (vars.lookup rel.relFrom), truthyStr (vars.lookup rel.relTo) with
  | some fv, some tv =>
    match rel.label with
    | some lab =>
      ["    " ++ fv ++ " >> Edge(label=" ++ sq ++ lab ++ sq ++ ") >> " ++ tv]
    | none => ["    " ++ fv ++ " >> " ++ tv]
  | _, _ => []

def relationshipLines (vars : List (String × String)) (rels : List DiagramRel) :
    List String :=
  if rels.isEmpty then []
  else ("    # Relationships" :: rels.flatMap (relLine vars)) ++ [""]

/-- `create_azure_architecture_diagram`, with the two ambient draws
(`temp_dir` from `tempfile.mkdtemp()`, `unique_id` the 8-character UUID
slice) as explicit inputs; returns the result string and the ordered trace
of side effects (temp directory creation, script write, `os.system` run). -/
def create_azure_architecture_diagram (temp_dir unique_id : String)
    (diagram_name : String) (components : List (String × List String))
    (relationships : List DiagramRel) : String × List Effect :=
  let file_name := replaceChar diagram_name (Char.ofNat 32) (Char.ofNat 95) ++ "_" ++ unique_id
  let diagram_path := temp_dir ++ "/" ++ file_name ++ ".py"
  let code := azureHeaderLines diagram_name file_name
    ++ componentLines components
    ++ relationshipLines (componentVars components) relationships
  let output_path := temp_dir ++ "/" ++ file_name ++ ".png"
  ("Azure architecture diagram " ++ sq ++ diagram_name ++ sq
     ++ " created successfully. The diagram has been saved to " ++ output_path
     ++ ". The diagram includes components from categories: "
     ++ String.intercalate ", " (components.map Prod.fst)
     ++ " with " ++ toString relationships.length ++ " relationships.",
   [.mkdtemp temp_dir,
    .fileWrite diagram_path (String.intercalate "\n" code),
    .systemCmd ("python " ++ diagram_path)])

def exComponents : List (String × List String) := [("compute", ["AppService"])]

/-- C8 (counterexample): the claim "every domain tool callable is a pure
string template whose return value is determined solely by its arguments,
with no stateful effect" is false on the code: two invocations of
`create_azure_architecture_diagram` with identical arguments but different
ambient UUID draws return different strings, and the invocation's effect
trace is not empty. -/
theorem create_azure_architecture_diagram_not_pure :
    (create_azure_architecture_diagram "/tmp/a" "11111111" "My Diagram" exComponents []).1
      ≠ (create_azure_architecture_diagram "/tmp/a" "22222222" "My Diagram" exComponents []).1
    ∧ (create_azure_architecture_diagram "/tmp/a" "11111111" "My Diagram" exComponents []).2
      ≠ [] := by
  decide

/-- C8 (amended): the simple domain tools (e.g. `identify_system_requirements`,
`create_system_diagram`) are pure string templates, but the Azure diagram
code-generation tools are not: every invocation of
`create_azure_architecture_diagram` creates a temporary directory, writes the
generated script into it and executes the script with `os.system` — its
effect trace is exactly that three-effect sequence — and the randomly drawn
identifier is spliced into the written path, so equal arguments need not
yield equal return strings. -/
theorem create_azure_architecture_diagram_effects
    (temp_dir unique_id diagram_name : String)
    (components : List (String × List String))
    (relationships : List DiagramRel) :
    ∃ path contents,
      (create_azure_architecture_diagram temp_dir unique_id diagram_name
          components relationships).2
        = [Effect.mkdtemp temp_dir, Effect.fileWrite path contents,
           Effect.systemCmd ("python " ++ path)]
      ∧ path = temp_dir ++ "/"
          ++ (replaceChar diagram_name (Char.ofNat 32) (Char.ofNat 95) ++ "_" ++ unique_id)
          ++ ".py" := by
  exact ⟨_, _, rfl, rfl⟩

end MACAE
